import Mathlib

/-!
Verification development for the build-configuration assembler of this
repository (the webpack configuration factory in the source file).  The
definitions below are a shallow embedding of that factory: the mode switch,
the resolved environment flags, the style-loader chain builder
(`getStyleLoaders`), the `oneOf` module-rule list, the `optimization`
section, the plugin list, and the `entry` value.  Theorems about the
specification's claims follow the definitions.
-/

namespace MyReact

/-- Build mode.  The source compares the `webpackEnv` argument against the
string literals used by the two supported modes
(`isEnvDevelopment = webpackEnv === 'development'`,
`isEnvProduction = webpackEnv === 'production'`). -/
inductive Mode
  | development
  | production
deriving DecidableEq, Repr

/-- Environment flags resolved once, before the descriptor is assembled.
Each field records the boolean outcome of one read of process-external
state performed by the source file:
`shouldUseSourceMap` is `process.env.GENERATE_SOURCEMAP !== 'false'`;
`shouldInlineRuntimeChunk` is `process.env.INLINE_RUNTIME_CHUNK !== 'false'`;
`useTypeScript` is `fs.existsSync(paths.appTsConfig)`;
`hasJsxRuntime` is the result of the IIFE probing `react/jsx-runtime`;
`shouldUseReactRefresh` is the truthiness of `env.raw.FAST_REFRESH`;
`profileFlag` is `process.argv.includes(--profile)`;
`swExists` is `fs.existsSync(swSrc)`;
`publicPathIsRelative` is `paths.publicUrlOrPath.startsWith(.)`. -/
structure Flags where
  mode : Mode
  shouldUseSourceMap : Bool
  shouldInlineRuntimeChunk : Bool
  useTypeScript : Bool
  hasJsxRuntime : Bool
  shouldUseReactRefresh : Bool
  profileFlag : Bool
  swExists : Bool
  publicPathIsRelative : Bool
deriving DecidableEq, Repr

/-- Source: `const isEnvDevelopment = webpackEnv === 'development'`. -/
def isEnvDevelopment (f : Flags) : Bool := f.mode == Mode.development

/-- Source: `const isEnvProduction = webpackEnv === 'production'`. -/
def isEnvProduction (f : Flags) : Bool := f.mode == Mode.production

/-- Source: `isEnvProduction && process.argv.includes('--profile')`. -/
def isEnvProductionProfile (f : Flags) : Bool := isEnvProduction f && f.profileFlag

/-- Options object passed to the css-loader step by `getStyleLoaders`
call sites: `importLoaders`, `sourceMap`, and (for the two module
dialects) a `modules.getLocalIdent` strategy, abstracted here as the
boolean `cssModules`. -/
structure CssOptions where
  importLoaders : Nat
  sourceMap : Bool
  cssModules : Bool
deriving DecidableEq, Repr

/-- One entry of the array returned by `getStyleLoaders`, tagged by the
loader module it resolves and carrying the option values the claims are
about.  `style` is style-loader (a bare string, no options in the
source); `miniCssExtract` is MiniCssExtractPlugin.loader with its
`publicPath` option present exactly when the public path is relative;
`css` is css-loader with its options object; `postcss` is
postcss-loader, whose only varying option is `sourceMap`; `resolveUrl`
is resolve-url-loader (options `sourceMap` and `root: paths.appSrc`);
`preProcessor` is the loader named by the `preProcessor` argument. -/
inductive StyleLoader
  | style
  | miniCssExtract (publicPathRelative : Bool)
  | css (options : CssOptions)
  | postcss (sourceMap : Bool)
  | resolveUrl (sourceMap : Bool)
  | preProcessor (id : String) (sourceMap : Bool)
deriving DecidableEq, Repr

/-- Shared ternary `isEnvProduction ? shouldUseSourceMap : isEnvDevelopment`
used by the postcss-loader options, the resolve-url-loader options, and
every css-loader `sourceMap` option at the rule call sites. -/
def styleSourceMap (f : Flags) : Bool :=
  if isEnvProduction f then f.shouldUseSourceMap else isEnvDevelopment f

/-- Embedding of `getStyleLoaders(cssOptions, preProcessor)`.  The source
builds a four-slot array whose first slot is `isEnvDevelopment &&
require.resolve('style-loader')` and whose second is `isEnvProduction &&
{loader: MiniCssExtractPlugin.loader, ...}`, then drops falsy slots with
`.filter(Boolean)`; the conditional singleton lists below encode exactly
that.  When `preProcessor` is given, resolve-url-loader and the named
preprocessor (with `sourceMap: true`) are pushed at the end. -/
def getStyleLoaders (f : Flags) (cssOptions : CssOptions)
    (preProcessor : Option String) : List StyleLoader :=
  ((if isEnvDevelopment f then [StyleLoader.style] else [])
    ++ (if isEnvProduction f then [StyleLoader.miniCssExtract f.publicPathIsRelative] else [])
    ++ [StyleLoader.css cssOptions, StyleLoader.postcss (styleSourceMap f)])
    ++ (match preProcessor with
        | none => []
        | some p => [StyleLoader.resolveUrl (styleSourceMap f),
                     StyleLoader.preProcessor p true])

/-- Abstraction of a file path tested by the module rules.  `name` is the
path string (the regex tests of the source are all suffix tests on it);
`underAppSrc` records whether the path is inside `paths.appSrc` (the
`include` of the application-script rule); `inBabelRuntime` records
whether the path matches the babel-runtime exclusion regex of the
third-party-script rule. -/
structure FileInfo where
  name : String
  underAppSrc : Bool
  inBabelRuntime : Bool
deriving DecidableEq, Repr

/-- Boolean suffix test on strings, used to embed the anchored extension
regexes of the source (all of the form a literal suffix followed by the
end anchor). -/
def strEndsWith (s suffix : String) : Bool := suffix.data.isSuffixOf s.data

/-- Test of the application/third-party script extension alternation used
by the babel rule and by the file-loader exclusion. -/
def hasScriptExt (p : FileInfo) : Bool :=
  strEndsWith p.name ".js" || strEndsWith p.name ".mjs" || strEndsWith p.name ".jsx"
    || strEndsWith p.name ".ts" || strEndsWith p.name ".tsx"

/-- Matcher of each rule of the `oneOf` list, by position.
0: url-loader for avif; 1: url-loader for bmp/gif/jpeg/png; 2:
babel-loader for script extensions with `include: paths.appSrc`; 3:
babel-loader for js/mjs with the babel-runtime exclusion; 4: css
excluding module css; 5: module css; 6: scss/sass excluding the module
variants; 7: module scss/sass; 8: file-loader with no test and the
exclusion list for script, html and json extensions. -/
def ruleMatches : Nat → FileInfo → Bool
  | 0, p => strEndsWith p.name ".avif"
  | 1, p => strEndsWith p.name ".bmp" || strEndsWith p.name ".gif"
      || strEndsWith p.name ".jpg" || strEndsWith p.name ".jpeg"
      || strEndsWith p.name ".png"
  | 2, p => hasScriptExt p && p.underAppSrc
  | 3, p => (strEndsWith p.name ".js" || strEndsWith p.name ".mjs") && !p.inBabelRuntime
  | 4, p => strEndsWith p.name ".css" && !(strEndsWith p.name ".module.css")
  | 5, p => strEndsWith p.name ".module.css"
  | 6, p => (strEndsWith p.name ".scss" || strEndsWith p.name ".sass")
      && !(strEndsWith p.name ".module.scss" || strEndsWith p.name ".module.sass")
  | 7, p => strEndsWith p.name ".module.scss" || strEndsWith p.name ".module.sass"
  | 8, p => !(hasScriptExt p || strEndsWith p.name ".html" || strEndsWith p.name ".json")
  | _, _ => false

/-- First-match-wins selection over the `oneOf` list: webpack traverses
the nine rules in order and uses the first whose matcher holds; when
none holds (everything the file-loader rule excludes) the engine handles
the file itself, embedded here as `none`. -/
def selectRule (p : FileInfo) : Option Nat :=
  if ruleMatches 0 p then some 0
  else if ruleMatches 1 p then some 1
  else if ruleMatches 2 p then some 2
  else if ruleMatches 3 p then some 3
  else if ruleMatches 4 p then some 4
  else if ruleMatches 5 p then some 5
  else if ruleMatches 6 p then some 6
  else if ruleMatches 7 p then some 7
  else if ruleMatches 8 p then some 8
  else none

/-- Option object of the TerserPlugin minimizer (the script minifier).
Field values mirror the literal `terserOptions` of the source plus its
`sourceMap` sibling option. -/
structure TerserOptions where
  parseEcma : Nat
  compressEcma : Nat
  compressWarnings : Bool
  comparisons : Bool
  inline : Nat
  mangleSafari10 : Bool
  keepClassnames : Bool
  keepFnames : Bool
  outputEcma : Nat
  outputComments : Bool
  asciiOnly : Bool
  sourceMap : Bool
deriving DecidableEq, Repr

/-- Map option of the OptimizeCSSAssetsPlugin minimizer when source maps
are on: `inline: false` (field `inlineMap`) and `annotation: true`
(field `annotate`; the raw source key is renamed here). -/
structure CssMapOpts where
  inlineMap : Bool
  annotate : Bool
deriving DecidableEq, Repr

/-- One entry of the `minimizer` array: TerserPlugin or
OptimizeCSSAssetsPlugin.  For the latter, `mapOpts = none` embeds
`map: false`, and `removeQuotes` is the `minifyFontValues.removeQuotes`
value of the named default preset. -/
inductive Minimizer
  | terser (opts : TerserOptions)
  | optimizeCssAssets (mapOpts : Option CssMapOpts) (removeQuotes : Bool)
deriving DecidableEq, Repr

/-- Source: the `terserOptions` literal (`parse.ecma: 8`,
`compress: {ecma: 5, warnings: false, comparisons: false, inline: 2}`,
`mangle.safari10: true`, `keep_classnames`/`keep_fnames` tied to the
production-profiling switch, `output: {ecma: 5, comments: false,
ascii_only: true}`) plus `sourceMap: shouldUseSourceMap`. -/
def terserOptions (f : Flags) : TerserOptions :=
  { parseEcma := 8
    compressEcma := 5
    compressWarnings := false
    comparisons := false
    inline := 2
    mangleSafari10 := true
    keepClassnames := isEnvProductionProfile f
    keepFnames := isEnvProductionProfile f
    outputEcma := 5
    outputComments := false
    asciiOnly := true
    sourceMap := f.shouldUseSourceMap }

/-- Source: `map: shouldUseSourceMap ? {inline: false, annotation: true} : false`. -/
def cssMinimizerMap (f : Flags) : Option CssMapOpts :=
  if f.shouldUseSourceMap then some { inlineMap := false, annotate := true } else none

/-- Embedding of the `optimization` section of the returned descriptor:
`minimize: isEnvProduction`, the two-element `minimizer` array,
`splitChunks: {chunks: all, name: false}` and a per-entry `runtimeChunk`
name rule, all set unconditionally. -/
structure Optimization where
  minimize : Bool
  minimizer : List Minimizer
  splitChunksAll : Bool
  splitChunksName : Bool
  runtimeChunkPerEntry : Bool
deriving DecidableEq, Repr

/-- Source: `runtimeChunk: {name: entrypoint => runtime-$\x7bentrypoint.name\x7d}`. -/
def runtimeChunkName (entryName : String) : String := "runtime-" ++ entryName

/-- Embedding of the `optimization` object built by the source. -/
def optimization (f : Flags) : Optimization :=
  { minimize := isEnvProduction f
    minimizer := [Minimizer.terser (terserOptions f),
                  Minimizer.optimizeCssAssets (cssMinimizerMap f) false]
    splitChunksAll := true
    splitChunksName := false
    runtimeChunkPerEntry := true }

/-- Tags for the optimization stages the specification talks about. -/
inductive OptimizationStage
  | minifyScript
  | minifyStyle
  | splitChunks
  | isolateRuntimeChunk
deriving DecidableEq, Repr

/-- Stage performed by a minimizer entry. -/
def minimizerStage : Minimizer → OptimizationStage
  | Minimizer.terser _ => OptimizationStage.minifyScript
  | Minimizer.optimizeCssAssets _ _ => OptimizationStage.minifyStyle

/-- Stages of the `optimization` section that are active for a build, by
webpack semantics: the `minimizer` entries run only when `minimize` is
true, chunk splitting is active because `splitChunks.chunks` is set
(to `all`), and runtime-chunk extraction is active because
`runtimeChunk` is set; the source sets the latter two in every mode. -/
def activeOptimizationStages (f : Flags) : List OptimizationStage :=
  (if (optimization f).minimize then (optimization f).minimizer.map minimizerStage else [])
    ++ (if (optimization f).splitChunksAll then [OptimizationStage.splitChunks] else [])
    ++ (if (optimization f).runtimeChunkPerEntry then [OptimizationStage.isolateRuntimeChunk] else [])

/-- Identifier of each plugin constructed in the `plugins` array of the
descriptor, in declaration order: HtmlWebpackPlugin,
InlineChunkHtmlPlugin, InterpolateHtmlPlugin, ModuleNotFoundPlugin,
webpack.DefinePlugin, webpack.HotModuleReplacementPlugin,
ReactRefreshWebpackPlugin, CaseSensitivePathsPlugin,
WatchMissingNodeModulesPlugin, MiniCssExtractPlugin, ManifestPlugin,
webpack.IgnorePlugin (moment locales), WorkboxWebpackPlugin
InjectManifest, ForkTsCheckerWebpackPlugin, ESLintPlugin. -/
inductive PluginId
  | htmlWebpack
  | inlineChunkHtml
  | interpolateHtml
  | moduleNotFound
  | define
  | hotModuleReplacement
  | reactRefresh
  | caseSensitivePaths
  | watchMissingNodeModules
  | miniCssExtract
  | manifest
  | ignoreMomentLocales
  | workboxInjectManifest
  | forkTsChecker
  | eslint
deriving DecidableEq, Repr

/-- Embedding of the `plugins` array.  The source lists each plugin
guarded by the boolean condition shown here (unguarded entries are
always truthy) and then drops falsy entries with `.filter(Boolean)`;
`filterMap` over the (condition, id) pairs encodes exactly that. -/
def plugins (f : Flags) : List PluginId :=
  ([ (true, PluginId.htmlWebpack),
     (isEnvProduction f && f.shouldInlineRuntimeChunk, PluginId.inlineChunkHtml),
     (true, PluginId.interpolateHtml),
     (true, PluginId.moduleNotFound),
     (true, PluginId.define),
     (isEnvDevelopment f, PluginId.hotModuleReplacement),
     (isEnvDevelopment f && f.shouldUseReactRefresh, PluginId.reactRefresh),
     (isEnvDevelopment f, PluginId.caseSensitivePaths),
     (isEnvDevelopment f, PluginId.watchMissingNodeModules),
     (isEnvProduction f, PluginId.miniCssExtract),
     (true, PluginId.manifest),
     (true, PluginId.ignoreMomentLocales),
     (isEnvProduction f && f.swExists, PluginId.workboxInjectManifest),
     (f.useTypeScript, PluginId.forkTsChecker),
     (true, PluginId.eslint) ] : List (Bool × PluginId)).filterMap
    (fun e => if e.1 then some e.2 else none)

/-- Stand-in for the resolved path of
react-dev-utils/webpackHotDevClient; only its identity matters here. -/
def webpackDevClientEntry : String := "react-dev-utils/webpackHotDevClient"

/-- Stand-in for the resolved path `paths.appIndexJs`; only its identity
matters here. -/
def appIndexJs : String := "paths.appIndexJs"

/-- Value of the `entry` field of the descriptor: a single path string or
an array of path strings, as in the source. -/
inductive EntryValue
  | single (path : String)
  | multi (paths : List String)
deriving DecidableEq, Repr

/-- Source: `entry: isEnvDevelopment && !shouldUseReactRefresh ?
[webpackDevClientEntry, paths.appIndexJs] : paths.appIndexJs`. -/
def entry (f : Flags) : EntryValue :=
  if isEnvDevelopment f && !f.shouldUseReactRefresh then
    EntryValue.multi [webpackDevClientEntry, appIndexJs]
  else
    EntryValue.single appIndexJs

/-- Whitespace characters skipped by the JavaScript `parseInt` before the
number: space, tab, line feed, carriage return, vertical tab, form
feed (the remaining Unicode whitespace is irrelevant to the inputs
considered here). -/
def isJsSpace (c : Char) : Bool :=
  c == ' ' || c == '\t' || c == '\n' || c == '\r' || c == '\x0b' || c == '\x0c'

/-- Numeric value of a character as a digit, hexadecimal letters
included. -/
def hexVal (c : Char) : Option Nat :=
  if '0' ≤ c ∧ c ≤ '9' then some (c.toNat - '0'.toNat)
  else if 'a' ≤ c ∧ c ≤ 'f' then some (c.toNat - 'a'.toNat + 10)
  else if 'A' ≤ c ∧ c ≤ 'F' then some (c.toNat - 'A'.toNat + 10)
  else none

/-- Digit value of a character in the given base, `none` when the
character is not a digit of that base. -/
def digitVal (base : Nat) (c : Char) : Option Nat :=
  match hexVal c with
  | some v => if v < base then some v else none
  | none => none

/-- Longest prefix of digit values in the given base. -/
def takeDigits (base : Nat) : List Char → List Nat
  | [] => []
  | c :: cs =>
    match digitVal base c with
    | some v => v :: takeDigits base cs
    | none => []

/-- Embedding of the JavaScript `parseInt(s)` with no radix argument:
skip leading whitespace, read an optional sign, switch to base 16 after
a 0x or 0X prefix, take the longest digit prefix, and produce NaN
(here `none`) when there is no digit. -/
def jsParseInt (s : String) : Option Int :=
  let cs := s.data.dropWhile isJsSpace
  let signAndRest : Int × List Char :=
    match cs with
    | '-' :: rest => (-1, rest)
    | '+' :: rest => (1, rest)
    | _ => (1, cs)
  let baseAndDigits : Nat × List Char :=
    match signAndRest.2 with
    | '0' :: 'x' :: rest => (16, rest)
    | '0' :: 'X' :: rest => (16, rest)
    | _ => (10, signAndRest.2)
  let digits := takeDigits baseAndDigits.1 baseAndDigits.2
  if digits.isEmpty then none
  else some (signAndRest.1 *
    (digits.foldl (fun acc d => acc * baseAndDigits.1 + d) 0 : Nat))

/-- Source: `const imageInlineSizeLimit =
parseInt(process.env.IMAGE_INLINE_SIZE_LIMIT || '10000')`.  The raw
environment value is `none` when the variable is absent; the JavaScript
or-operator substitutes the default string for every falsy value, which
for strings means absent or empty. -/
def resolveImageInlineSizeLimit (raw : Option String) : Option Int :=
  let s := match raw with
    | none => "10000"
    | some v => if v = "" then "10000" else v
  jsParseInt s

/-- Concrete development flags used by concrete-input theorems: fast
refresh on, TypeScript on. -/
def devFlags : Flags :=
  { mode := Mode.development
    shouldUseSourceMap := true
    shouldInlineRuntimeChunk := true
    useTypeScript := true
    hasJsxRuntime := true
    shouldUseReactRefresh := true
    profileFlag := false
    swExists := false
    publicPathIsRelative := false }

/-- Concrete production flags used by concrete-input theorems. -/
def prodFlags : Flags :=
  { mode := Mode.production
    shouldUseSourceMap := true
    shouldInlineRuntimeChunk := true
    useTypeScript := true
    hasJsxRuntime := true
    shouldUseReactRefresh := false
    profileFlag := false
    swExists := false
    publicPathIsRelative := false }

/-- Concrete production flags with source maps disabled. -/
def prodFlagsNoSourceMap : Flags :=
  { prodFlags with shouldUseSourceMap := false }

/-- C1 (counterexample): the claim says the optimization-stage output is
empty in Development, but the source configures `splitChunks` and
`runtimeChunk` unconditionally, so in Development the active stage list
is chunk-splitting followed by runtime-chunk extraction, not empty. -/
theorem optimization_dev_counterexample :
    activeOptimizationStages devFlags ≠ [] ∧
    activeOptimizationStages devFlags =
      [OptimizationStage.splitChunks, OptimizationStage.isolateRuntimeChunk] := by
  decide

/-- C1 (amended): only minification is production-gated (`minimize:
isEnvProduction`); in Production the active stages are script
minification, stylesheet minification, chunk-splitting, runtime-chunk
extraction in that order, and in Development the minifiers are disabled
while chunk-splitting and runtime-chunk extraction remain active. -/
theorem optimizationStages_by_mode (f : Flags) :
    activeOptimizationStages f =
      if isEnvProduction f then
        [OptimizationStage.minifyScript, OptimizationStage.minifyStyle,
         OptimizationStage.splitChunks, OptimizationStage.isolateRuntimeChunk]
      else [OptimizationStage.splitChunks, OptimizationStage.isolateRuntimeChunk] := by
  obtain ⟨m, sm, irc, ts, jsx, rr, pf, sw, rel⟩ := f
  cases m <;> rfl

/-- C2 (counterexample): the claim says every file path selects exactly
one rule, but a plain html file matches none of the nine rules: the
eight specific matchers fail on it and the fallback excludes the html
extension, so first-match selection returns nothing. -/
theorem moduleRules_html_counterexample :
    selectRule ⟨"index.html", false, false⟩ = none ∧
    ((List.range 9).all fun i => !(ruleMatches i ⟨"index.html", false, false⟩)) = true := by
  decide

set_option maxHeartbeats 1600000 in
/-- C2 (amended): selection picks at most one rule, namely the first
whose matcher holds, every earlier matcher failing on the selected
path; the fallback is never selected for a file that one of the eight
earlier rules matches, and the fallback matcher rejects every script,
html and json extension. -/
theorem moduleRules_fallback_ok :
    (∀ p i, selectRule p = some i →
      ruleMatches i p = true ∧ ∀ j, j < i → ruleMatches j p = false) ∧
    (∀ p i, i < 8 → ruleMatches i p = true → selectRule p ≠ some 8) ∧
    (∀ p, (hasScriptExt p || strEndsWith p.name ".html" || strEndsWith p.name ".json") = true →
      ruleMatches 8 p = false) := by
  refine ⟨?_, ?_, ?_⟩
  · intro p i h
    unfold selectRule at h
    split_ifs at h with h0 h1 h2 h3 h4 h5 h6 h7 h8 <;>
      first
        | exact Option.noConfusion h
        | (injection h with hi
           subst hi
           refine ⟨by assumption, ?_⟩
           intro j hj
           interval_cases j <;> exact (Bool.not_eq_true _) ▸ (by assumption))
  · intro p i hi hm
    interval_cases i <;>
      · unfold selectRule
        split_ifs <;> simp_all
  · intro p h
    show (!(hasScriptExt p || strEndsWith p.name ".html" || strEndsWith p.name ".json")) = false
    rw [h]
    rfl

/-- C2 (witness): a png file selects the second image rule, which is
then its first matching rule; the fallback is not selected for it; an
html file satisfies the exclusion hypothesis and the fallback matcher
rejects it. -/
theorem moduleRules_fallback_ok_witness :
    (selectRule ⟨"logo.png", false, false⟩ = some 1 ∧
      (ruleMatches 1 ⟨"logo.png", false, false⟩ = true ∧
        ∀ j, j < 1 → ruleMatches j ⟨"logo.png", false, false⟩ = false)) ∧
    ((1 : Nat) < 8 ∧ ruleMatches 1 ⟨"logo.png", false, false⟩ = true ∧
      selectRule ⟨"logo.png", false, false⟩ ≠ some 8) ∧
    ((hasScriptExt ⟨"app.html", false, false⟩ || strEndsWith "app.html" ".html" ||
        strEndsWith "app.html" ".json") = true ∧
      ruleMatches 8 ⟨"app.html", false, false⟩ = false) :=
  ⟨⟨by decide, moduleRules_fallback_ok.1 ⟨"logo.png", false, false⟩ 1 (by decide)⟩,
   ⟨by decide, by decide,
    moduleRules_fallback_ok.2.1 ⟨"logo.png", false, false⟩ 1 (by decide) (by decide)⟩,
   ⟨by decide, moduleRules_fallback_ok.2.2 ⟨"app.html", false, false⟩ (by decide)⟩⟩

/-- C3 (counterexample): the claim says the Development chain without
preprocessor has exactly 4 steps; the source builds style-loader,
css-loader and postcss-loader only, a 3-step chain. -/
theorem styleChain_dev_counterexample :
    (getStyleLoaders devFlags ⟨1, false, false⟩ none).length = 3 ∧
    ¬((getStyleLoaders devFlags ⟨1, false, false⟩ none).length = 4) := by
  decide

/-- C3 (amended): in Development with importLoaders 1, sourceMap false
and no preprocessor, the chain has exactly 3 steps, the first being the
style-injection step and the last the vendor-prefix (postcss) step. -/
theorem styleChain_dev_shape (f : Flags) (h : f.mode = Mode.development) :
    (getStyleLoaders f ⟨1, false, false⟩ none).length = 3 ∧
    (getStyleLoaders f ⟨1, false, false⟩ none).head? = some StyleLoader.style ∧
    (getStyleLoaders f ⟨1, false, false⟩ none).getLast? = some (StyleLoader.postcss true) := by
  obtain ⟨m, sm, irc, ts, jsx, rr, pf, sw, rel⟩ := f
  cases m
  · exact ⟨rfl, rfl, rfl⟩
  · exact Mode.noConfusion h

/-- C3 (witness): the amended statement instantiated at the concrete
development flags. -/
theorem styleChain_dev_shape_witness :
    devFlags.mode = Mode.development ∧
    ((getStyleLoaders devFlags ⟨1, false, false⟩ none).length = 3 ∧
     (getStyleLoaders devFlags ⟨1, false, false⟩ none).head? = some StyleLoader.style ∧
     (getStyleLoaders devFlags ⟨1, false, false⟩ none).getLast? =
       some (StyleLoader.postcss true)) :=
  ⟨rfl, styleChain_dev_shape devFlags rfl⟩

/-- C4 (counterexample): the claim says the Production sass chain has
exactly 6 steps; the source builds extraction, css-loader,
postcss-loader, resolve-url-loader and sass-loader, a 5-step chain. -/
theorem styleChain_prod_sass_counterexample :
    (getStyleLoaders prodFlags ⟨3, true, false⟩ (some "sass-loader")).length = 5 ∧
    ¬((getStyleLoaders prodFlags ⟨3, true, false⟩ (some "sass-loader")).length = 6) := by
  decide

/-- C4 (amended): in Production with importLoaders 3, sourceMap true and
the sass preprocessor, the chain has exactly 5 steps, the first being
the CSS-extraction step and the last two being the URL-rewriting step
followed by the sass step. -/
theorem styleChain_prod_sass_shape (f : Flags) (h : f.mode = Mode.production) :
    (getStyleLoaders f ⟨3, true, false⟩ (some "sass-loader")).length = 5 ∧
    (getStyleLoaders f ⟨3, true, false⟩ (some "sass-loader")).head? =
      some (StyleLoader.miniCssExtract f.publicPathIsRelative) ∧
    (getStyleLoaders f ⟨3, true, false⟩ (some "sass-loader")).drop 3 =
      [StyleLoader.resolveUrl f.shouldUseSourceMap,
       StyleLoader.preProcessor "sass-loader" true] := by
  obtain ⟨m, sm, irc, ts, jsx, rr, pf, sw, rel⟩ := f
  cases m
  · exact Mode.noConfusion h
  · exact ⟨rfl, rfl, rfl⟩

/-- C4 (witness): the amended statement instantiated at the concrete
production flags. -/
theorem styleChain_prod_sass_shape_witness :
    prodFlags.mode = Mode.production ∧
    ((getStyleLoaders prodFlags ⟨3, true, false⟩ (some "sass-loader")).length = 5 ∧
     (getStyleLoaders prodFlags ⟨3, true, false⟩ (some "sass-loader")).head? =
       some (StyleLoader.miniCssExtract prodFlags.publicPathIsRelative) ∧
     (getStyleLoaders prodFlags ⟨3, true, false⟩ (some "sass-loader")).drop 3 =
       [StyleLoader.resolveUrl prodFlags.shouldUseSourceMap,
        StyleLoader.preProcessor "sass-loader" true]) :=
  ⟨rfl, styleChain_prod_sass_shape prodFlags rfl⟩

/-- Closed form of the enabled plugin list in Development: of the
conditional entries, hot-module-replacement, the case-sensitivity guard
and the missing-module watcher are always on, fast-refresh follows its
flag, type checking follows TypeScript presence, and the
production-only entries are off whatever their flags say. -/
theorem plugins_dev_closed {sm irc ts jsx rr pf sw rel : Bool} :
    plugins ⟨Mode.development, sm, irc, ts, jsx, rr, pf, sw, rel⟩ =
      [PluginId.htmlWebpack, PluginId.interpolateHtml, PluginId.moduleNotFound,
        PluginId.define, PluginId.hotModuleReplacement]
        ++ ((if rr then [PluginId.reactRefresh] else [])
        ++ ([PluginId.caseSensitivePaths, PluginId.watchMissingNodeModules,
             PluginId.manifest, PluginId.ignoreMomentLocales]
        ++ ((if ts then [PluginId.forkTsChecker] else []) ++ [PluginId.eslint]))) := by
  cases rr <;> cases ts <;> rfl

/-- Closed form of the enabled plugin list in Production: runtime-chunk
inlining, service-worker injection and type checking follow their
flags, CSS extraction is always on, and the development-only entries
are off whatever their flags say. -/
theorem plugins_prod_closed {sm irc ts jsx rr pf sw rel : Bool} :
    plugins ⟨Mode.production, sm, irc, ts, jsx, rr, pf, sw, rel⟩ =
      [PluginId.htmlWebpack]
        ++ ((if irc then [PluginId.inlineChunkHtml] else [])
        ++ ([PluginId.interpolateHtml, PluginId.moduleNotFound, PluginId.define,
             PluginId.miniCssExtract, PluginId.manifest, PluginId.ignoreMomentLocales]
        ++ ((if sw then [PluginId.workboxInjectManifest] else [])
        ++ ((if ts then [PluginId.forkTsChecker] else []) ++ [PluginId.eslint])))) := by
  cases irc <;> cases sw <;> cases ts <;> rfl

/-- C5 (counterexample): the claim says the type-checking plugin is the
last enabled entry, but the lint plugin is unconditional and declared
after it, so with Development, fast refresh and TypeScript the last
entry is the lint plugin, not the type checker. -/
theorem plugins_typecheck_not_last_counterexample :
    PluginId.forkTsChecker ∈ plugins devFlags ∧
    (plugins devFlags).getLast? = some PluginId.eslint ∧
    (plugins devFlags).getLast? ≠ some PluginId.forkTsChecker := by
  decide

/-- C5 (amended): with Development mode, fast refresh and TypeScript the
enabled list contains hot-module-replacement strictly before
fast-refresh, and the type-checking plugin is the second-to-last entry,
immediately followed by the lint plugin which is last. -/
theorem plugins_dev_refresh_ts_order (f : Flags) (h1 : f.mode = Mode.development)
    (h2 : f.shouldUseReactRefresh = true) (h3 : f.useTypeScript = true) :
    PluginId.hotModuleReplacement ∈ plugins f ∧
    PluginId.reactRefresh ∈ plugins f ∧
    (plugins f).indexOf PluginId.hotModuleReplacement <
      (plugins f).indexOf PluginId.reactRefresh ∧
    (plugins f).getLast? = some PluginId.eslint ∧
    (plugins f).dropLast.getLast? = some PluginId.forkTsChecker := by
  obtain ⟨m, sm, irc, ts, jsx, rr, pf, sw, rel⟩ := f
  cases m
  · cases rr
    · exact Bool.noConfusion h2
    · cases ts
      · exact Bool.noConfusion h3
      · rw [plugins_dev_closed]
        decide
  · exact Mode.noConfusion h1

/-- C5 (witness): the amended statement instantiated at the concrete
development flags. -/
theorem plugins_dev_refresh_ts_order_witness :
    devFlags.mode = Mode.development ∧ devFlags.shouldUseReactRefresh = true ∧
    devFlags.useTypeScript = true ∧
    (PluginId.hotModuleReplacement ∈ plugins devFlags ∧
     PluginId.reactRefresh ∈ plugins devFlags ∧
     (plugins devFlags).indexOf PluginId.hotModuleReplacement <
       (plugins devFlags).indexOf PluginId.reactRefresh ∧
     (plugins devFlags).getLast? = some PluginId.eslint ∧
     (plugins devFlags).dropLast.getLast? = some PluginId.forkTsChecker) :=
  ⟨rfl, rfl, rfl, plugins_dev_refresh_ts_order devFlags rfl rfl rfl⟩

/-- C6: in Production with profiling off, the enabled plugin list never
contains hot-module-replacement, fast-refresh, the case-sensitivity
guard or the missing-module watcher, and always contains CSS extraction
and asset-manifest generation, whatever the remaining flags are. -/
theorem plugins_production_matrix (f : Flags) (h1 : f.mode = Mode.production)
    (h2 : f.profileFlag = false) :
    PluginId.hotModuleReplacement ∉ plugins f ∧
    PluginId.reactRefresh ∉ plugins f ∧
    PluginId.caseSensitivePaths ∉ plugins f ∧
    PluginId.watchMissingNodeModules ∉ plugins f ∧
    PluginId.miniCssExtract ∈ plugins f ∧
    PluginId.manifest ∈ plugins f := by
  obtain ⟨m, sm, irc, ts, jsx, rr, pf, sw, rel⟩ := f
  cases m
  · exact Mode.noConfusion h1
  · rw [plugins_prod_closed]
    cases irc <;> cases sw <;> cases ts <;> decide

/-- C6 (witness): the statement instantiated at the concrete production
flags with profiling off. -/
theorem plugins_production_matrix_witness :
    prodFlags.mode = Mode.production ∧ prodFlags.profileFlag = false ∧
    (PluginId.hotModuleReplacement ∉ plugins prodFlags ∧
     PluginId.reactRefresh ∉ plugins prodFlags ∧
     PluginId.caseSensitivePaths ∉ plugins prodFlags ∧
     PluginId.watchMissingNodeModules ∉ plugins prodFlags ∧
     PluginId.miniCssExtract ∈ plugins prodFlags ∧
     PluginId.manifest ∈ plugins prodFlags) :=
  ⟨rfl, rfl, plugins_production_matrix prodFlags rfl rfl⟩

/-- C7 (counterexample): the claim says a raw value that fails to parse
as a non-negative integer falls back to the default 10000, but the
source applies `parseInt` with no recovery: a non-numeric value yields
NaN (none) and a negative value is kept. -/
theorem imageInlineSizeLimit_counterexample :
    resolveImageInlineSizeLimit (some "abc") = none ∧
    resolveImageInlineSizeLimit (some "abc") ≠ some 10000 ∧
    resolveImageInlineSizeLimit (some "-5") = some (-5) := by
  decide

/-- C7 (amended): the resolved limit is 10000 when the raw environment
value is absent or empty; otherwise it is exactly `parseInt` of the raw
value, with no fallback on parse failure and no sign check. -/
theorem imageInlineSizeLimit_resolution :
    resolveImageInlineSizeLimit none = some 10000 ∧
    resolveImageInlineSizeLimit (some "") = some 10000 ∧
    ∀ s : String, s ≠ "" → resolveImageInlineSizeLimit (some s) = jsParseInt s := by
  refine ⟨by decide, by decide, ?_⟩
  intro s hs
  unfold resolveImageInlineSizeLimit
  simp [hs]

/-- C7 (witness): the amended statement instantiated at a concrete
non-numeric raw value. -/
theorem imageInlineSizeLimit_resolution_witness :
    ("abc" : String) ≠ "" ∧
    resolveImageInlineSizeLimit (some "abc") = jsParseInt "abc" :=
  ⟨by decide, imageInlineSizeLimit_resolution.2.2 "abc" (by decide)⟩

/-- C8: the runtime-chunk-inlining plugin can be enabled only in
Production and the fast-refresh plugin only in Development, whatever
the other flags are. -/
theorem inline_prod_refresh_dev_only (f : Flags) :
    (PluginId.inlineChunkHtml ∈ plugins f → f.mode = Mode.production) ∧
    (PluginId.reactRefresh ∈ plugins f → f.mode = Mode.development) := by
  obtain ⟨m, sm, irc, ts, jsx, rr, pf, sw, rel⟩ := f
  constructor
  · intro hmem
    cases m
    · rw [plugins_dev_closed] at hmem
      cases rr <;> cases ts <;> exact absurd hmem (by decide)
    · rfl
  · intro hmem
    cases m
    · rfl
    · rw [plugins_prod_closed] at hmem
      cases irc <;> cases sw <;> cases ts <;> exact absurd hmem (by decide)

/-- C8 (witness): the inlining plugin is enabled at the concrete
production flags and the theorem yields Production mode; the
fast-refresh plugin is enabled at the concrete development flags and
the theorem yields Development mode. -/
theorem inline_prod_refresh_dev_only_witness :
    (PluginId.inlineChunkHtml ∈ plugins prodFlags ∧ prodFlags.mode = Mode.production) ∧
    (PluginId.reactRefresh ∈ plugins devFlags ∧ devFlags.mode = Mode.development) :=
  ⟨⟨by decide, (inline_prod_refresh_dev_only prodFlags).1 (by decide)⟩,
   ⟨by decide, (inline_prod_refresh_dev_only devFlags).2 (by decide)⟩⟩

/-- C10: the entry value is the two-element sequence dev-server client
then application index exactly when the mode is Development and fast
refresh is disabled; in every other configuration it is the single
application index entry. -/
theorem entry_shape (f : Flags) :
    (entry f = EntryValue.multi [webpackDevClientEntry, appIndexJs] ↔
      (f.mode = Mode.development ∧ f.shouldUseReactRefresh = false)) ∧
    ((f.mode = Mode.production ∨ f.shouldUseReactRefresh = true) →
      entry f = EntryValue.single appIndexJs) := by
  obtain ⟨m, sm, irc, ts, jsx, rr, pf, sw, rel⟩ := f
  cases m <;> cases rr
  · exact ⟨⟨fun _ => ⟨rfl, rfl⟩, fun _ => rfl⟩,
      fun h => h.elim (fun h1 => Mode.noConfusion h1) (fun h2 => Bool.noConfusion h2)⟩
  · exact ⟨⟨fun h => EntryValue.noConfusion h, fun h => Bool.noConfusion h.2⟩, fun _ => rfl⟩
  · exact ⟨⟨fun h => EntryValue.noConfusion h, fun h => Mode.noConfusion h.1⟩, fun _ => rfl⟩
  · exact ⟨⟨fun h => EntryValue.noConfusion h, fun h => Mode.noConfusion h.1⟩, fun _ => rfl⟩

/-- C10 (witness): the implication instantiated at the concrete
production flags. -/
theorem entry_shape_witness :
    (prodFlags.mode = Mode.production ∨ prodFlags.shouldUseReactRefresh = true) ∧
    entry prodFlags = EntryValue.single appIndexJs :=
  ⟨Or.inl rfl, (entry_shape prodFlags).2 (Or.inl rfl)⟩

/-- C9 (counterexample): the claim says both trailing steps carry
source maps forced on in every mode, but in Production with the
source-map flag off the URL-rewriting step is built with its source-map
option false. -/
theorem styleChain_preprocessor_counterexample :
    (getStyleLoaders prodFlagsNoSourceMap ⟨3, false, false⟩ (some "sass-loader")).drop 3 =
      [StyleLoader.resolveUrl false, StyleLoader.preProcessor "sass-loader" true] ∧
    StyleLoader.resolveUrl true ∉
      getStyleLoaders prodFlagsNoSourceMap ⟨3, false, false⟩ (some "sass-loader") := by
  decide

/-- C9 (amended): whenever a preprocessor is given, the chain is the
preprocessor-free chain followed by the URL-rewriting step and then the
named preprocessor step; the preprocessor step always has source maps
on, while the URL-rewriting step mirrors the global source-map flag in
Production and is on in Development. -/
theorem styleChain_preprocessor_tail (f : Flags) (opts : CssOptions) (p : String) :
    getStyleLoaders f opts (some p) =
      getStyleLoaders f opts none
        ++ [StyleLoader.resolveUrl (styleSourceMap f), StyleLoader.preProcessor p true] := by
  obtain ⟨m, sm, irc, ts, jsx, rr, pf, sw, rel⟩ := f
  cases m <;> rfl

end MyReact
